import Mathlib

/-!
Shallow embedding of `lib/aggregator.py`: the material-usage aggregation
engine (list exploder, chunk planner, extraction stage, indirect
aggregation, usage-summary builder, unused snapshot, duplicate detector,
summary query facade), together with theorems settling the spec claims.

Modelling conventions:
* MySQL `DATETIME` values are modelled as `Int` (an epoch-style ordered
  value); the literal `'1970-01-01'` sentinel is `epoch1970 = 0`.
* Nullable SQL columns are `Option`-typed; MySQL `COALESCE` and the
  NULL-propagating MySQL `GREATEST` are modelled explicitly.
* Tables are lists of rows.  A table that may not exist in the schema
  (`van_pv_materials_extracted`, `van_pv_mat`) is `Option (List _)`,
  `none` meaning the table is absent.
* Fallible SQL is `Option`-valued: when `van_pv_mat` does not exist, the
  summary INSERT references the columns `p.cnt` / `p.last_dt` of the
  columnless derived table `(SELECT NULL) p`, so MySQL raises error 1054
  and `rebuild_usage_summary` (hence `rebuild_all`) aborts; that raising
  execution is the `none` result.
* Python's unbounded `int` is `Int`; id-list parsing produces only
  digit-runs, hence non-negative values.
-/

namespace MatAgg

set_option maxRecDepth 4000

/-- Net effect of the two cleaning regexes in `_explode_csv`
(`_csv_strip_re` removes brackets/whitespace/quotes, then
`_csv_keep_digits_commas` removes everything that is not a digit or a
comma): only digits and commas survive. -/
def keepChar (c : Char) : Bool := c.isDigit || c == ','

/-- Python `str.split(",")` on a character list: splits at every comma and
keeps empty tokens (`"" .split(",") == [""]`). -/
def splitComma : List Char → List (List Char)
  | [] => [[]]
  | c :: rest =>
    match splitComma rest with
    | [] => [[]]
    | t :: ts => if c = ',' then [] :: t :: ts else (c :: t) :: ts

/-- Python `token.isdigit()`: nonempty and all digits (the cleaned text is
ASCII-only, so ASCII digits suffice). -/
def pyIsDigit (cs : List Char) : Bool := !cs.isEmpty && cs.all (·.isDigit)

/-- Python `int(p)` on a digit token. -/
def digitsVal (cs : List Char) : Nat :=
  cs.foldl (fun n c => 10 * n + (c.toNat - '0'.toNat)) 0

/-- The `seen`/`out` loop at the end of `_explode_csv`: deduplicate while
preserving first-occurrence order. -/
def dedupFirst (seen : List Int) : List Int → List Int
  | [] => []
  | x :: xs => if x ∈ seen then dedupFirst seen xs else x :: dedupFirst (x :: seen) xs

/-- `_explode_csv` (aggregator.py lines 31-49).  `none` models Python
`None`; `if not value` is false for `None` and for the empty string. -/
def _explode_csv (value : Option String) : List Int :=
  match value with
  | none => []
  | some s =>
    if s = "" then []
    else
      let cleaned := s.toList.filter keepChar
      let parts := (splitComma cleaned).filter pyIsDigit
      dedupFirst [] (parts.map (fun p => (digitsVal p : Int)))

/-- The body of the `while` loop in `_loop_ranges` (lines 52-57), given a
fuel budget.  Whenever `1 ≤ step` the loop advances `a` by at least one per
iteration, so fuel `(end_id + 1 - start_id).toNat` makes the fueled version
agree with the Python loop; with `step ≤ 0` the Python loop diverges and
the claims do not constrain it. -/
def loopRangesGo (end_id step : Int) : Nat → Int → List (Int × Int)
  | 0, _ => []
  | fuel + 1, a =>
    if a ≤ end_id then
      (a, min (a + step - 1) end_id) :: loopRangesGo end_id step fuel (min (a + step - 1) end_id + 1)
    else []

/-- `_loop_ranges(start_id, end_id, step)` (lines 52-57). -/
def _loop_ranges (start_id end_id step : Int) : List (Int × Int) :=
  loopRangesGo end_id step (end_id + 1 - start_id).toNat start_id

/-- The inclusive integer interval `[a, b]` as an ascending list; used to
state what "concatenation exactly reconstructs `[start_id, end_id]`"
means. -/
def rangeList (a b : Int) : List Int :=
  (List.range (b + 1 - a).toNat).map (fun i : Nat => a + (i : Int))

/-- A row of the `materials` catalog (columns read by the engine). -/
structure Material where
  id : Int
  title : String
  material_brand_id : Option Int
  material_brand_style_id : Option Int
  material_category_id : Option Int
  modified : Option Int
deriving DecidableEq

/-- A row of a list-bearing source table (`tmp_project_elevations` or
`project_views`): primary key, modification time, embedded id-list. -/
structure ListRow where
  id : Int
  modified : Option Int
  existing_material_ids : Option String
deriving DecidableEq

/-- A normalized edge row of `van_tpe_materials_extracted` /
`van_pv_materials_extracted` (`elevation_id` resp. `project_view_id` is
`entity_id`). -/
structure Edge where
  entity_id : Int
  material_id : Int
  modified : Option Int
deriving DecidableEq

/-- A per-source aggregate row (`van_jobareas_mat`, `van_elev_mat`,
`van_pv_mat`): count and latest timestamp per material id
(`material_id` is the tables' PRIMARY KEY, so at most one row per id). -/
structure Agg where
  material_id : Int
  cnt : Int
  last_dt : Option Int
deriving DecidableEq

/-- A row of `job_area_materials` (columns used by `_agg_job_areas`). -/
structure JamRow where
  id : Int
  material_option_id : Int
  updated : Option Int
deriving DecidableEq

/-- A row of `material_options` (the intermediate mapping table;
`id` is its PRIMARY KEY). -/
structure MORow where
  id : Int
  material_id : Option Int
deriving DecidableEq

/-- A row of a lookup table (`material_brands`, `material_brand_styles`,
`material_categories`); `id` is the PRIMARY KEY. -/
structure LookupRow where
  id : Int
  title : String
deriving DecidableEq

/-- A row of `van_material_usage_summary`. -/
structure SummaryRow where
  material_id : Int
  used_job_areas : Int
  used_elevations : Int
  used_project_views : Int
  total_uses : Int
  last_used : Option Int
deriving DecidableEq

/-- A row of `van_unused_materials` (the constant
`reason_all_unused = 1` column is omitted). -/
structure UnusedRow where
  material_id : Int
  last_used : Option Int
  snapshot_at : Int
deriving DecidableEq

/-- A row of `van_duplicate_materials`. -/
structure DupRow where
  key_type : String
  group_hash : String
  group_size : Int
  material_id : Int
  snapshot_at : Int
deriving DecidableEq

/-- The database state: source tables (read-only for the engine) plus the
engine-owned `van_*` tables.  `pvHasCol` is the schema fact probed by
`_col_exists(engine, "project_views", "existing_material_ids")`; the two
optional `van_pv_*` tables are `none` while absent from the schema. -/
structure DB where
  materials : List Material
  material_brands : List LookupRow
  material_brand_styles : List LookupRow
  material_categories : List LookupRow
  tmp_project_elevations : List ListRow
  pvHasCol : Bool
  project_views : List ListRow
  job_area_materials : List JamRow
  material_options : List MORow
  van_tpe_materials_extracted : List Edge
  van_pv_materials_extracted : Option (List Edge)
  van_jobareas_mat : List Agg
  van_elev_mat : List Agg
  van_pv_mat : Option (List Agg)
  van_material_usage_summary : List SummaryRow
  van_unused_materials : List UnusedRow
  van_duplicate_materials : List DupRow
deriving DecidableEq

/-- The SQL predicate `existing_material_ids IS NOT NULL AND
existing_material_ids <> ''`. -/
def hasListVal (r : ListRow) : Bool :=
  match r.existing_material_ids with
  | none => false
  | some s => !(s == "")

/-- `SELECT MIN(id), MAX(id)` over a list of already-filtered rows:
`none` models the `(NULL, NULL)` result on an empty set. -/
def minMaxId (ids : List Int) : Option (Int × Int) :=
  match ids with
  | [] => none
  | x :: xs => some (xs.foldl min x, xs.foldl max x)

/-- The inner loop of `refresh_extracted_tables` for one source row: one
edge row per element of the exploded list. -/
def rowEdges (r : ListRow) : List Edge :=
  (_explode_csv r.existing_material_ids).map
    (fun mid => { entity_id := r.id, material_id := mid, modified := r.modified })

/-- One chunk's `SELECT ... WHERE id BETWEEN a AND b AND
existing_material_ids IS NOT NULL AND existing_material_ids <> ''`. -/
def chunkRows (rows : List ListRow) (a b : Int) : List ListRow :=
  rows.filter (fun r => decide (a ≤ r.id) && decide (r.id ≤ b) && hasListVal r)

/-- The chunked explode-and-insert scan of `refresh_extracted_tables`
(lines 162-226) for one source table. -/
def extractEdges (rows : List ListRow) (step_rows : Int) : List Edge :=
  match minMaxId ((rows.filter hasListVal).map ListRow.id) with
  | none => []
  | some (mi, ma) =>
    (_loop_ranges mi ma step_rows).flatMap
      (fun ab => (chunkRows rows ab.1 ab.2).flatMap rowEdges)

/-- The `last_dt` update step of `_agg_job_areas`: keep `prev` unless the
new timestamp is non-null and strictly greater (or `prev` is absent).
Also models SQL `MAX` over nullable timestamps when folded. -/
def maxOptUpd (prev dt : Option Int) : Option Int :=
  match dt with
  | none => prev
  | some d =>
    match prev with
    | none => some d
    | some p => if p < d then some d else some p

/-- One iteration of the `counts`/`last_dt` accumulation in
`_agg_job_areas`, on an association list in first-insertion order (Python
dicts preserve insertion order). -/
def bumpAgg : List Agg → Int → Option Int → List Agg
  | [], mid, dt => [{ material_id := mid, cnt := 1, last_dt := maxOptUpd none dt }]
  | a :: rest, mid, dt =>
    if a.material_id = mid then
      { a with cnt := a.cnt + 1, last_dt := maxOptUpd a.last_dt dt } :: rest
    else a :: bumpAgg rest mid dt

/-- One chunk of the `_agg_job_areas` scan: `job_area_materials JOIN
material_options mo ON mo.id = jam.material_option_id WHERE jam.id BETWEEN
a AND b AND mo.material_id IS NOT NULL` (the PRIMARY KEY on
`material_options.id` makes the join a `find?`). -/
def jamJoinRows (jam : List JamRow) (mos : List MORow) (a b : Int) :
    List (Int × Option Int) :=
  (jam.filter (fun r => decide (a ≤ r.id) && decide (r.id ≤ b))).filterMap
    (fun r =>
      match (mos.find? (fun mo => mo.id == r.material_option_id)).bind MORow.material_id with
      | none => none
      | some mid => some (mid, r.updated))

/-- `_agg_job_areas` (lines 229-273): chunked scan, in-memory
count/latest accumulation, result in first-occurrence order. -/
def _agg_job_areas (jam : List JamRow) (mos : List MORow) (step_rows : Int) : List Agg :=
  match minMaxId (jam.map JamRow.id) with
  | none => []
  | some (mi, ma) =>
    ((_loop_ranges mi ma step_rows).flatMap (fun ab => jamJoinRows jam mos ab.1 ab.2)).foldl
      (fun acc p => bumpAgg acc p.1 p.2) []

/-- SQL `MAX(modified)` over a group of edges (ignores NULLs; all-NULL
gives NULL). -/
def maxModified (es : List Edge) : Option Int :=
  es.foldl (fun acc ed => maxOptUpd acc ed.modified) none

/-- The `GROUP BY material_id` aggregation `SELECT material_id, COUNT(*),
MAX(modified)` used to fill `van_elev_mat` / `van_pv_mat`
(lines 287-300). -/
def groupAgg (es : List Edge) : List Agg :=
  (dedupFirst [] (es.map Edge.material_id)).map
    (fun mid =>
      { material_id := mid
        cnt := ((es.filter (fun ed => ed.material_id == mid)).length : Int)
        last_dt := maxModified (es.filter (fun ed => ed.material_id == mid)) })

/-- `LEFT JOIN t ON t.material_id = m.id` against a PRIMARY-KEY-per-id
aggregate table: at most one matching row. -/
def lookupAgg (t : List Agg) (mid : Int) : Option Agg :=
  t.find? (fun a => a.material_id == mid)

/-- MySQL two-argument `GREATEST`: NULL-propagating maximum (the n-ary
`GREATEST` is its left-nested iteration). -/
def greatest2 (x y : Option Int) : Option Int :=
  match x, y with
  | some a, some b => some (max a b)
  | _, _ => none

/-- MySQL `COALESCE(x, d)` for a non-null default. -/
def coalesceI (x : Option Int) (d : Int) : Int := x.getD d

/-- The `'1970-01-01'` sentinel used by the summary query. -/
def epoch1970 : Int := 0

/-- One output row of the summary `INSERT ... SELECT` (lines 305-324) in
the only case in which that statement executes at all, namely when
`van_pv_mat` exists and is LEFT-JOINed as `p` (when it does not exist the
whole INSERT raises; see `rebuild_usage_summary`): `COALESCE`d per-source
counts, their sum, and `GREATEST` of the three sentinel-`COALESCE`d
per-source timestamps and `CAST(m.modified AS DATETIME)` (which, being
MySQL `GREATEST`, is NULL when `m.modified` is NULL). -/
def summaryRow (j e p : List Agg) (m : Material) : SummaryRow :=
  let jr := lookupAgg j m.id
  let er := lookupAgg e m.id
  let pr := lookupAgg p m.id
  let jc := coalesceI (jr.map Agg.cnt) 0
  let ec := coalesceI (er.map Agg.cnt) 0
  let pc := coalesceI (pr.map Agg.cnt) 0
  { material_id := m.id
    used_job_areas := jc
    used_elevations := ec
    used_project_views := pc
    total_uses := jc + ec + pc
    last_used :=
      greatest2 (greatest2 (greatest2
        (some (coalesceI (jr.bind Agg.last_dt) epoch1970))
        (some (coalesceI (er.bind Agg.last_dt) epoch1970)))
        (some (coalesceI (pr.bind Agg.last_dt) epoch1970)))
        m.modified }

/-- The full summary `INSERT ... SELECT FROM materials m LEFT JOIN ...`:
one row per catalog material (successful executions only, see
`summaryRow`). -/
def buildSummary (j e p : List Agg) (cat : List Material) :
    List SummaryRow :=
  cat.map (summaryRow j e p)

/-- `_ensure_tables` (lines 60-144): `CREATE TABLE IF NOT EXISTS` is a
content-preserving no-op for tables already modelled as present; the two
optional `van_pv_*` tables are created (empty) exactly when `has_pv`. -/
def _ensure_tables (db : DB) (has_pv : Bool) : DB :=
  if has_pv then
    { db with
      van_pv_materials_extracted := some (db.van_pv_materials_extracted.getD [])
      van_pv_mat := some (db.van_pv_mat.getD []) }
  else db

/-- `refresh_extracted_tables` (lines 151-226): probe the optional column,
ensure tables, truncate and rebuild the extracted-edge tables via the
chunked scan. -/
def refresh_extracted_tables (db : DB) (step_rows : Int) : DB :=
  let has_pv := db.pvHasCol
  let db1 := _ensure_tables db has_pv
  let db2 := { db1 with
    van_tpe_materials_extracted := extractEdges db1.tmp_project_elevations step_rows }
  if has_pv then
    { db2 with van_pv_materials_extracted := some (extractEdges db2.project_views step_rows) }
  else db2

/-- `rebuild_usage_summary` (lines 276-334): probe the optional column,
ensure tables, rebuild the three per-source aggregates, then the summary
and the unused snapshot.  The summary SELECT list names the columns
`p.cnt` and `p.last_dt`; when the `_col_exists(engine, "van_pv_mat",
"material_id")` probe on line 323 is false the join falls back to
`LEFT JOIN (SELECT NULL) p ON 1=0`, whose derived table has no columns of
those names, so MySQL raises error 1054 (unknown column `p.cnt`) and the
function aborts with no summary and no unused rows written: that error
path is the `none` result.  `van_pv_mat` exists after step 2 iff it is
`some` here (when `has_pv` it was just created/rebuilt, otherwise only a
leftover from an earlier deployment can make it exist).  `now` models
`NOW()`. -/
def rebuild_usage_summary (db : DB) (now : Int) : Option DB :=
  let has_pv := db.pvHasCol
  let db1 := _ensure_tables db has_pv
  let db2 := { db1 with
    van_jobareas_mat := _agg_job_areas db1.job_area_materials db1.material_options 5000 }
  let db3 := { db2 with
    van_elev_mat := groupAgg db2.van_tpe_materials_extracted
    van_pv_mat :=
      if has_pv then some (groupAgg (db2.van_pv_materials_extracted.getD []))
      else db2.van_pv_mat }
  match db3.van_pv_mat with
  | none => none
  | some pvt =>
    let db4 := { db3 with
      van_material_usage_summary :=
        buildSummary db3.van_jobareas_mat db3.van_elev_mat pvt db3.materials }
    some { db4 with
      van_unused_materials :=
        (db4.van_material_usage_summary.filter (fun r => r.total_uses == 0)).map
          (fun r => { material_id := r.material_id, last_used := r.last_used,
                      snapshot_at := now }) }

/-- MySQL `TRIM`: strip leading and trailing space characters. -/
def sqlTrim (s : String) : String :=
  String.mk (((s.toList.dropWhile (· == ' ')).reverse.dropWhile (· == ' ')).reverse)

/-- MySQL `LOWER`. -/
def sqlLower (s : String) : String := String.mk (s.toList.map Char.toLower)

/-- `LOWER(TRIM(x))`, the normalization applied to every key component. -/
def normTitle (s : String) : String := sqlLower (sqlTrim s)

/-- `LEFT JOIN`-then-project for the brand/style/category lookup tables:
NULL when the foreign key is NULL or dangling. -/
def lookupTitle (t : List LookupRow) (oid : Option Int) : Option String :=
  oid.bind (fun i => (t.find? (fun r => r.id == i)).map LookupRow.title)

/-- `CONCAT_WS('|', xs)` where every argument is already non-NULL
(each is wrapped in `COALESCE(..., '')` in the source SQL). -/
def concatWS (xs : List String) : String := String.intercalate "|" xs

/-- Key expression `LOWER(TRIM(m.title))`. -/
def keyTitle (m : Material) : String := normTitle m.title

/-- Key expression for `title_brand`:
`CONCAT_WS('|', LOWER(TRIM(m.title)), LOWER(TRIM(COALESCE(mb.title,''))))`. -/
def keyTitleBrand (brands : List LookupRow) (m : Material) : String :=
  concatWS [normTitle m.title,
    normTitle ((lookupTitle brands m.material_brand_id).getD "")]

/-- Key expression for `title_brand_style`. -/
def keyTitleBrandStyle (brands styles : List LookupRow) (m : Material) : String :=
  concatWS [normTitle m.title,
    normTitle ((lookupTitle brands m.material_brand_id).getD ""),
    normTitle ((lookupTitle styles m.material_brand_style_id).getD "")]

/-- Key expression for `title_brand_style_category`. -/
def keyTitleBrandStyleCategory (brands styles cats : List LookupRow) (m : Material) : String :=
  concatWS [normTitle m.title,
    normTitle ((lookupTitle brands m.material_brand_id).getD ""),
    normTitle ((lookupTitle styles m.material_brand_style_id).getD ""),
    normTitle ((lookupTitle cats m.material_category_id).getD "")]

/-- `_dup_insert` (lines 341-372): one membership row per material whose
key collides with more than one material.  `MD5` is modelled as the
identity on the normalized key string (a deterministic injective
abstraction of the hash; the source treats hash equality as key
equality). -/
def _dup_insert (kt : String) (key : Material → String) (ms : List Material) (now : Int) :
    List DupRow :=
  ms.filterMap (fun m =>
    let k := key m
    let gs := (ms.filter (fun m2 => key m2 == k)).length
    if 1 < gs then
      some { key_type := kt, group_hash := k, group_size := (gs : Int),
             material_id := m.id, snapshot_at := now }
    else none)

/-- `rebuild_duplicates` (lines 375-393): truncate once, then append the
four strategies' groups. -/
def rebuild_duplicates (db : DB) (now : Int) : DB :=
  { db with
    van_duplicate_materials :=
      _dup_insert "title" keyTitle db.materials now
      ++ _dup_insert "title_brand" (keyTitleBrand db.material_brands) db.materials now
      ++ _dup_insert "title_brand_style"
          (keyTitleBrandStyle db.material_brands db.material_brand_styles) db.materials now
      ++ _dup_insert "title_brand_style_category"
          (keyTitleBrandStyleCategory db.material_brands db.material_brand_styles
            db.material_categories) db.materials now }

/-- `rebuild_all` (lines 438-444): probe, ensure, then the three rebuild
stages in order.  An exception raised by `rebuild_usage_summary`
propagates, so `rebuild_duplicates` never runs on the error path. -/
def rebuild_all (db : DB) (now : Int) : Option DB :=
  let has_pv := db.pvHasCol
  let db1 := _ensure_tables db has_pv
  let db2 := refresh_extracted_tables db1 5000
  match rebuild_usage_summary db2 now with
  | none => none
  | some db3 => some (rebuild_duplicates db3 now)

/-- The per-material stats record returned by
`get_material_usage_stats`. -/
structure UsageStats where
  job_areas : Int
  elevations : Int
  project_views : Int
  total : Int
  last_used : Option Int
deriving DecidableEq

/-- Python truthiness of the `material_ids` parameter (`if material_ids:`):
false for `None` and for the empty list. -/
def pyTruthyIds : Option (List Int) → Bool
  | none => false
  | some ids => !ids.isEmpty

/-- `get_material_usage_stats` (lines 400-435): optional `WHERE material_id
IN (...)` filter, applied only when the parameter is truthy; the result
dict (insertion-ordered, keys unique by the summary's PRIMARY KEY) is
modelled as an ordered list of `(material_id, stats)` pairs. -/
def get_material_usage_stats (db : DB) (material_ids : Option (List Int)) :
    List (Int × UsageStats) :=
  let rows :=
    if pyTruthyIds material_ids then
      db.van_material_usage_summary.filter
        (fun r => (material_ids.getD []).contains r.material_id)
    else db.van_material_usage_summary
  rows.map (fun r =>
    (r.material_id,
      { job_areas := r.used_job_areas, elevations := r.used_elevations,
        project_views := r.used_project_views, total := r.total_uses,
        last_used := r.last_used }))

/-- The schema column probed at lines 153, 278 and 440:
`project_views.existing_material_ids`. -/
def pvColProbe : String := "project_views.existing_material_ids"

/-- The schema column probed at line 323: `van_pv_mat.material_id`. -/
def pvMatColProbe : String := "van_pv_mat.material_id"

/-- The `_col_exists` schema probes issued by `refresh_extracted_tables`,
in order: exactly one, at line 153, unconditionally. -/
def refresh_extracted_probes : List String := [pvColProbe]

/-- The `_col_exists` schema probes issued by `rebuild_usage_summary`, in
order: line 278, then line 323 (the latter evaluated unconditionally while
composing the summary SQL string). -/
def rebuild_usage_summary_probes : List String := [pvColProbe, pvMatColProbe]

/-- The `_col_exists` schema probes issued during one `rebuild_all`: its
own probe at line 440, then those of the stages it calls
(`rebuild_duplicates` issues none). -/
def rebuild_all_probes : List String :=
  [pvColProbe] ++ refresh_extracted_probes ++ rebuild_usage_summary_probes

/-- Projection of a duplicate-group row without its timestamp column. -/
def dropSnapshot (d : DupRow) : String × String × Int × Int :=
  (d.key_type, d.group_hash, d.group_size, d.material_id)

/-- The `UsageSummary`'s `last_used` as the spec's words describe it for
the amended C5: the maximum of the three per-source `last_seen` values
(absent sources contributing the `1970-01-01` sentinel) and the material's
own `modified` timestamp — defined exactly when `modified` is non-null,
null when `modified` is null. -/
def specLastUsed (jd ed pd : Option Int) (modified : Option Int) : Option Int :=
  modified.map (fun t =>
    max (max (max (jd.getD epoch1970) (ed.getD epoch1970)) (pd.getD epoch1970)) t)

/-- A minimal deployment without the optional project-view column: one
catalog material whose `modified` timestamp is NULL, all sources empty,
`van_pv_*` tables absent. -/
def dbNoPv : DB :=
  { materials := [{ id := 1, title := "Oak Panel", material_brand_id := none,
                    material_brand_style_id := none, material_category_id := none,
                    modified := none }]
    material_brands := []
    material_brand_styles := []
    material_categories := []
    tmp_project_elevations := []
    pvHasCol := false
    project_views := []
    job_area_materials := []
    material_options := []
    van_tpe_materials_extracted := []
    van_pv_materials_extracted := none
    van_jobareas_mat := []
    van_elev_mat := []
    van_pv_mat := none
    van_material_usage_summary := []
    van_unused_materials := []
    van_duplicate_materials := [] }

/-- The elevation source row of the end-to-end scenario: `id = 10`,
`existing_material_ids = "[5,7,7]"`, modified 2023-01-01 (as an epoch-style
stand-in value). -/
def rowC8 : ListRow :=
  { id := 10, modified := some 20230101, existing_material_ids := some "[5,7,7]" }

/-- A minimal deployment where the project-view column exists: one catalog
material whose `modified` timestamp is NULL, all sources empty, the
`van_pv_*` tables not yet created (they are created by
`_ensure_tables`). -/
def dbWithPv : DB :=
  { materials := [{ id := 1, title := "Oak Panel", material_brand_id := none,
                    material_brand_style_id := none, material_category_id := none,
                    modified := none }]
    material_brands := []
    material_brand_styles := []
    material_categories := []
    tmp_project_elevations := []
    pvHasCol := true
    project_views := []
    job_area_materials := []
    material_options := []
    van_tpe_materials_extracted := []
    van_pv_materials_extracted := none
    van_jobareas_mat := []
    van_elev_mat := []
    van_pv_mat := none
    van_material_usage_summary := []
    van_unused_materials := []
    van_duplicate_materials := [] }

/-- The state committed by a successful `rebuild_usage_summary` run
(defaulting to the input state when the run raises); used to name the
concrete result of a successful run in closed statements. -/
def rusOk (db : DB) (now : Int) : DB := (rebuild_usage_summary db now).getD db

/-- The state committed by a successful `rebuild_all` run (defaulting to
the input state when the run raises). -/
def raOk (db : DB) (now : Int) : DB := (rebuild_all db now).getD db

end MatAgg

namespace MatAgg

theorem rangeList_empty (a e : Int) (h : e < a) : rangeList a e = [] := by
  unfold rangeList
  have h0 : (e + 1 - a).toNat = 0 := by omega
  rw [h0]
  rfl

theorem rangeList_split (a b e : Int) (h1 : a - 1 ≤ b) (h2 : b ≤ e) :
    rangeList a e = rangeList a b ++ rangeList (b + 1) e := by
  unfold rangeList
  have hm : (e + 1 - a).toNat = (b + 1 - a).toNat + (e + 1 - (b + 1)).toNat := by omega
  rw [hm, List.range_add, List.map_append, List.map_map]
  congr 1
  apply List.map_congr_left
  intro i _
  simp only [Function.comp_apply]
  have hc : ((b + 1 - a).toNat : Int) = b + 1 - a := by omega
  push_cast
  omega

theorem loopRangesGo_spec (e st : Int) (hst : 1 ≤ st) :
    ∀ (fuel : Nat) (a : Int), (e + 1 - a).toNat ≤ fuel →
      ((loopRangesGo e st fuel a).flatMap (fun ab => rangeList ab.1 ab.2) = rangeList a e
      ∧ ∀ ab ∈ loopRangesGo e st fuel a, ab.1 ≤ ab.2 ∧ ab.2 - ab.1 + 1 ≤ st) := by
  intro fuel
  induction fuel with
  | zero =>
    intro a ha
    have he : e < a := by omega
    refine ⟨?_, ?_⟩
    · simp [loopRangesGo, rangeList_empty a e he]
    · simp [loopRangesGo]
  | succ f ih =>
    intro a ha
    by_cases hae : a ≤ e
    · have hab : a ≤ min (a + st - 1) e := by omega
      have hbe : min (a + st - 1) e ≤ e := by omega
      have hfa : (e + 1 - (min (a + st - 1) e + 1)).toNat ≤ f := by omega
      obtain ⟨ih1, ih2⟩ := ih (min (a + st - 1) e + 1) hfa
      refine ⟨?_, ?_⟩
      · simp only [loopRangesGo, if_pos hae, List.flatMap_cons, ih1]
        exact (rangeList_split a (min (a + st - 1) e) e (by omega) hbe).symm
      · intro ab hmem
        simp only [loopRangesGo, if_pos hae, List.mem_cons] at hmem
        rcases hmem with h | h
        · subst h
          exact ⟨hab, by omega⟩
        · exact ih2 _ h
    · refine ⟨?_, ?_⟩
      · simp [loopRangesGo, hae, rangeList_empty a e (by omega)]
      · simp [loopRangesGo, hae]

/-- C2: for `start_id ≤ end_id` and `step ≥ 1`, `_loop_ranges` yields a
finite list of inclusive sub-ranges `[a, b]` whose concatenation exactly
reconstructs `[start_id, end_id]` (no gaps, no overlaps, ascending), each
of width at most `step`; and for `start_id > end_id` it yields the empty
sequence. -/
theorem loop_ranges_spec (s e st : Int) (hst : 1 ≤ st) :
    ((_loop_ranges s e st).flatMap (fun ab => rangeList ab.1 ab.2) = rangeList s e)
    ∧ (∀ ab ∈ _loop_ranges s e st, ab.1 ≤ ab.2 ∧ ab.2 - ab.1 + 1 ≤ st)
    ∧ (e < s → _loop_ranges s e st = []) := by
  obtain ⟨h1, h2⟩ := loopRangesGo_spec e st hst (e + 1 - s).toNat s (le_refl _)
  refine ⟨h1, h2, ?_⟩
  intro hes
  unfold _loop_ranges
  have h0 : (e + 1 - s).toNat = 0 := by omega
  rw [h0]
  rfl

/-- Witness for C2 at `start_id = 1`, `end_id = 7`, `step = 3`: the planner
produces `[(1,3),(4,6),(7,7)]` and the theorem's hypotheses hold there. -/
theorem loop_ranges_spec_witness :
    _loop_ranges 1 7 3 = [(1, 3), (4, 6), (7, 7)]
    ∧ (((_loop_ranges 1 7 3).flatMap (fun ab => rangeList ab.1 ab.2) = rangeList 1 7)
      ∧ (∀ ab ∈ _loop_ranges 1 7 3, ab.1 ≤ ab.2 ∧ ab.2 - ab.1 + 1 ≤ 3)
      ∧ ((7 : Int) < 1 → _loop_ranges 1 7 3 = [])) :=
  ⟨by decide, loop_ranges_spec 1 7 3 (by decide)⟩

theorem dedupFirst_nodup_aux :
    ∀ (l seen : List Int), (dedupFirst seen l).Nodup ∧ ∀ x ∈ dedupFirst seen l, x ∉ seen := by
  intro l
  induction l with
  | nil => intro seen; simp [dedupFirst]
  | cons x xs ih =>
    intro seen
    by_cases hx : x ∈ seen
    · simpa [dedupFirst, hx] using ih seen
    · obtain ⟨ihn, ihs⟩ := ih (x :: seen)
      refine ⟨?_, ?_⟩
      · simp only [dedupFirst, if_neg hx, List.nodup_cons]
        refine ⟨fun hmem => ?_, ihn⟩
        exact ihs x hmem (List.mem_cons_self x seen)
      · intro y hy
        simp only [dedupFirst, if_neg hx, List.mem_cons] at hy
        rcases hy with h | h
        · subst h; exact hx
        · intro hyseen
          exact ihs y h (List.mem_cons_of_mem x hyseen)

/-- C3: the exploder's concrete contract — `explode("[1, \"2\", 3,3]") =
[1,2,3]` (order preserved, duplicates removed), `explode("") = []`,
`explode(None) = []`, `explode("abc") = []` — and in general the result
never contains a duplicate. -/
theorem explode_csv_spec :
    _explode_csv (some "[1, \"2\", 3,3]") = [1, 2, 3]
    ∧ _explode_csv (some "") = []
    ∧ _explode_csv none = []
    ∧ _explode_csv (some "abc") = []
    ∧ ∀ v, (_explode_csv v).Nodup := by
  refine ⟨by decide, by decide, by decide, by decide, ?_⟩
  intro v
  match v with
  | none => simp [_explode_csv]
  | some s =>
    by_cases hs : s = ""
    · simp [_explode_csv, hs]
    · simp only [_explode_csv, if_neg hs]
      exact (dedupFirst_nodup_aux _ []).1

theorem rus_ok_summary_eq (db : DB) (now : Int) (db2 : DB)
    (h : rebuild_usage_summary db now = some db2) :
    db2.van_material_usage_summary
      = db.materials.map
          (summaryRow db2.van_jobareas_mat db2.van_elev_mat (db2.van_pv_mat.getD [])) := by
  cases hpv : db.pvHasCol
  · cases hmat : db.van_pv_mat
    · simp [rebuild_usage_summary, _ensure_tables, hpv, hmat] at h
    · simp [rebuild_usage_summary, _ensure_tables, hpv, hmat] at h
      subst h
      simp [buildSummary]
  · simp [rebuild_usage_summary, _ensure_tables, hpv] at h
    subst h
    simp [buildSummary]

theorem map_summaryRow_ids (j e p : List Agg) (cat : List Material) :
    ((cat.map (summaryRow j e p)).map SummaryRow.material_id) = cat.map Material.id := by
  rw [List.map_map]
  rfl

/-- C1: whenever `rebuild_usage_summary` completes (committing the state
`db2`), every summary row satisfies `total_uses = used_job_areas +
used_elevations + used_project_views`, and the summary's `material_id`
column is exactly the catalog's `id` column (one row per catalog material,
zero-usage materials included). -/
theorem usage_summary_invariant (db : DB) (now : Int) (db2 : DB)
    (h : rebuild_usage_summary db now = some db2) :
    (∀ r ∈ db2.van_material_usage_summary,
        r.total_uses = r.used_job_areas + r.used_elevations + r.used_project_views)
    ∧ db2.van_material_usage_summary.map SummaryRow.material_id
        = db.materials.map Material.id := by
  rw [rus_ok_summary_eq db now db2 h]
  refine ⟨?_, map_summaryRow_ids _ _ _ _⟩
  intro r hr
  obtain ⟨m, _, rfl⟩ := List.mem_map.1 hr
  rfl

/-- Witness for C1 at the concrete deployment `dbWithPv`, whose rebuild
completes. -/
theorem usage_summary_invariant_witness :
    (∀ r ∈ (rusOk dbWithPv 0).van_material_usage_summary,
        r.total_uses = r.used_job_areas + r.used_elevations + r.used_project_views)
    ∧ (rusOk dbWithPv 0).van_material_usage_summary.map SummaryRow.material_id
        = dbWithPv.materials.map Material.id :=
  usage_summary_invariant dbWithPv 0 (rusOk dbWithPv 0) (by decide)

/-- C4 (code-bug evidence): in a deployment where the optional
project-view column is absent and `van_pv_mat` was never created
(`dbNoPv`), the summary INSERT takes the `LEFT JOIN (SELECT NULL) p ON
1=0` branch while its SELECT list still references `p.cnt` / `p.last_dt`,
so MySQL raises error 1054 and `rebuild_usage_summary` (and hence
`rebuild_all`) aborts instead of completing — the model returns `none`,
no summary rows are produced. -/
theorem summary_without_pv_raises :
    dbNoPv.pvHasCol = false ∧ dbNoPv.van_pv_mat = none
    ∧ rebuild_usage_summary dbNoPv 0 = none
    ∧ rebuild_all dbNoPv 0 = none := by
  decide

/-- C5 counterexample, at an input where the real code completes
(`dbWithPv`: the project-view column exists, so the summary INSERT
succeeds): the single catalog material has a NULL `modified` timestamp and
no usage anywhere, and its summary row's `last_used` is NULL — MySQL
`GREATEST` propagates the NULL of `CAST(m.modified AS DATETIME)` —
refuting "last_used is always defined (never null), including when the
material's modified timestamp is null". -/
theorem last_used_null_counterexample :
    rebuild_usage_summary dbWithPv 0 = some (rusOk dbWithPv 0)
    ∧ (rusOk dbWithPv 0).van_material_usage_summary.map SummaryRow.last_used = [none]
    ∧ ¬ (∀ r ∈ (rusOk dbWithPv 0).van_material_usage_summary,
          r.last_used ≠ none) := by
  decide

/-- C5 amended: on every completing rebuild, each summary row's
`last_used` equals the maximum of the three per-source `last_seen`
timestamps (absent sources contributing the `1970-01-01` sentinel) and the
material's own `modified` timestamp whenever `modified` is non-null; when
`modified` is NULL, `last_used` is NULL (`specLastUsed` states exactly
this, `none` iff `modified = none`). -/
theorem last_used_amended (db : DB) (now : Int) (db2 : DB)
    (h : rebuild_usage_summary db now = some db2) :
    (db2.van_material_usage_summary
      = db.materials.map
          (summaryRow db2.van_jobareas_mat db2.van_elev_mat (db2.van_pv_mat.getD [])))
    ∧ ∀ (j e p : List Agg) (m : Material),
        (summaryRow j e p m).last_used
          = specLastUsed ((lookupAgg j m.id).bind Agg.last_dt)
              ((lookupAgg e m.id).bind Agg.last_dt)
              ((lookupAgg p m.id).bind Agg.last_dt)
              m.modified := by
  refine ⟨rus_ok_summary_eq db now db2 h, ?_⟩
  intro j e p m
  cases hm : m.modified <;>
    simp [summaryRow, specLastUsed, greatest2, coalesceI, hm]

/-- Witness for C5's amended theorem at the completing run on
`dbWithPv`. -/
theorem last_used_amended_witness :
    ((rusOk dbWithPv 0).van_material_usage_summary
      = dbWithPv.materials.map
          (summaryRow (rusOk dbWithPv 0).van_jobareas_mat
            (rusOk dbWithPv 0).van_elev_mat ((rusOk dbWithPv 0).van_pv_mat.getD [])))
    ∧ ∀ (j e p : List Agg) (m : Material),
        (summaryRow j e p m).last_used
          = specLastUsed ((lookupAgg j m.id).bind Agg.last_dt)
              ((lookupAgg e m.id).bind Agg.last_dt)
              ((lookupAgg p m.id).bind Agg.last_dt)
              m.modified :=
  last_used_amended dbWithPv 0 (rusOk dbWithPv 0) (by decide)

theorem dup_insert_dropSnapshot (kt : String) (key : Material → String)
    (ms : List Material) (n m : Int) :
    (_dup_insert kt key ms n).map dropSnapshot
      = (_dup_insert kt key ms m).map dropSnapshot := by
  simp [_dup_insert, List.map_filterMap, apply_ite, dropSnapshot]

theorem rebuild_all_ok_spec (db : DB) (n : Int) (db2 : DB)
    (h : rebuild_all db n = some db2) :
    db2.materials = db.materials
    ∧ db2.material_brands = db.material_brands
    ∧ db2.material_brand_styles = db.material_brand_styles
    ∧ db2.material_categories = db.material_categories
    ∧ db2.tmp_project_elevations = db.tmp_project_elevations
    ∧ db2.pvHasCol = db.pvHasCol
    ∧ db2.project_views = db.project_views
    ∧ db2.job_area_materials = db.job_area_materials
    ∧ db2.material_options = db.material_options
    ∧ db2.van_pv_mat
        = some (if db.pvHasCol then groupAgg (extractEdges db.project_views 5000)
                else db.van_pv_mat.getD [])
    ∧ db2.van_material_usage_summary
        = buildSummary (_agg_job_areas db.job_area_materials db.material_options 5000)
            (groupAgg (extractEdges db.tmp_project_elevations 5000))
            (if db.pvHasCol then groupAgg (extractEdges db.project_views 5000)
             else db.van_pv_mat.getD [])
            db.materials
    ∧ db2.van_unused_materials
        = (db2.van_material_usage_summary.filter (fun r => r.total_uses == 0)).map
            (fun r => ({ material_id := r.material_id, last_used := r.last_used,
                         snapshot_at := n } : UnusedRow))
    ∧ db2.van_duplicate_materials
        = _dup_insert "title" keyTitle db.materials n
          ++ _dup_insert "title_brand" (keyTitleBrand db.material_brands) db.materials n
          ++ _dup_insert "title_brand_style"
              (keyTitleBrandStyle db.material_brands db.material_brand_styles)
              db.materials n
          ++ _dup_insert "title_brand_style_category"
              (keyTitleBrandStyleCategory db.material_brands db.material_brand_styles
                db.material_categories) db.materials n := by
  cases hpv : db.pvHasCol
  · cases hmat : db.van_pv_mat
    · exfalso
      simp [rebuild_all, rebuild_usage_summary, refresh_extracted_tables,
        _ensure_tables, hpv, hmat] at h
    · simp [rebuild_all, rebuild_usage_summary, refresh_extracted_tables,
        _ensure_tables, rebuild_duplicates, hpv, hmat] at h
      subst h
      refine ⟨?_, ?_, ?_, ?_, ?_, ?_, ?_, ?_, ?_, ?_, ?_, ?_, ?_⟩ <;>
        simp [hpv, hmat, buildSummary]
  · simp [rebuild_all, rebuild_usage_summary, refresh_extracted_tables,
      _ensure_tables, rebuild_duplicates, hpv] at h
    subst h
    refine ⟨?_, ?_, ?_, ?_, ?_, ?_, ?_, ?_, ?_, ?_, ?_, ?_, ?_⟩ <;>
      simp [hpv, buildSummary]

theorem rebuild_all_isSome (db : DB) (n : Int)
    (h : db.pvHasCol = true ∨ db.van_pv_mat ≠ none) :
    (rebuild_all db n).isSome = true := by
  cases hpv : db.pvHasCol
  · cases hmat : db.van_pv_mat
    · exfalso
      rcases h with h | h
      · rw [hpv] at h
        exact absurd h (by decide)
      · exact h hmat
    · simp [rebuild_all, rebuild_usage_summary, refresh_extracted_tables,
        _ensure_tables, rebuild_duplicates, hpv, hmat]
  · simp [rebuild_all, rebuild_usage_summary, refresh_extracted_tables,
      _ensure_tables, rebuild_duplicates, hpv]

/-- C6: whenever a full rebuild completes (committing `db2`), a material
id appears in the unused snapshot iff its usage-summary row has
`total_uses = 0`. -/
theorem unused_iff_zero_total (db : DB) (now : Int) (db2 : DB) (mid : Int)
    (h : rebuild_all db now = some db2) :
    mid ∈ db2.van_unused_materials.map UnusedRow.material_id
    ↔ ∃ r ∈ db2.van_material_usage_summary,
        r.material_id = mid ∧ r.total_uses = 0 := by
  obtain ⟨_, _, _, _, _, _, _, _, _, _, _, hun, _⟩ := rebuild_all_ok_spec db now db2 h
  rw [hun]
  simp only [List.map_map, List.mem_map, List.mem_filter, beq_iff_eq,
    Function.comp_apply]
  aesop

/-- Witness for C6 at the completing rebuild on `dbWithPv` and
`material_id = 1`. -/
theorem unused_iff_zero_total_witness :
    1 ∈ (raOk dbWithPv 0).van_unused_materials.map UnusedRow.material_id
    ↔ ∃ r ∈ (raOk dbWithPv 0).van_material_usage_summary,
        r.material_id = 1 ∧ r.total_uses = 0 :=
  unused_iff_zero_total dbWithPv 0 (raOk dbWithPv 0) 1 (by decide)

/-- C7: if a full rebuild completes, a second full rebuild over the
unchanged source tables (the engine only reads them) also completes and
yields the same usage-summary table and the same duplicate-groups table up
to the `snapshot_at` timestamp column. -/
theorem rebuild_all_idempotent (db : DB) (n1 n2 : Int) (dbA : DB)
    (h1 : rebuild_all db n1 = some dbA) :
    ∃ dbB, rebuild_all dbA n2 = some dbB
      ∧ dbB.van_material_usage_summary = dbA.van_material_usage_summary
      ∧ dbB.van_duplicate_materials.map dropSnapshot
          = dbA.van_duplicate_materials.map dropSnapshot := by
  obtain ⟨hm, hb, hs, hc, ht, hp, hv, hj, ho, hpvm, hsum, hun, hdup⟩ :=
    rebuild_all_ok_spec db n1 dbA h1
  have hok : (rebuild_all dbA n2).isSome = true := by
    apply rebuild_all_isSome
    right
    rw [hpvm]
    exact Option.some_ne_none _
  obtain ⟨dbB, hB⟩ := Option.isSome_iff_exists.mp hok
  obtain ⟨hm2, hb2, hs2, hc2, ht2, hp2, hv2, hj2, ho2, hpvm2, hsum2, hun2, hdup2⟩ :=
    rebuild_all_ok_spec dbA n2 dbB hB
  refine ⟨dbB, hB, ?_, ?_⟩
  · rw [hsum2, hsum, hm, ht, hp, hv, hj, ho]
    cases hpv : db.pvHasCol
    · simp [hpv, hpvm]
    · simp [hpv]
  · rw [hdup2, hdup, hm, hb, hs, hc]
    simp only [List.map_append]
    rw [dup_insert_dropSnapshot _ _ _ n2 n1, dup_insert_dropSnapshot _ _ _ n2 n1,
      dup_insert_dropSnapshot _ _ _ n2 n1, dup_insert_dropSnapshot _ _ _ n2 n1]

/-- Witness for C7 at the completing rebuild on `dbWithPv`. -/
theorem rebuild_all_idempotent_witness :
    ∃ dbB, rebuild_all (raOk dbWithPv 0) 1 = some dbB
      ∧ dbB.van_material_usage_summary = (raOk dbWithPv 0).van_material_usage_summary
      ∧ dbB.van_duplicate_materials.map dropSnapshot
          = (raOk dbWithPv 0).van_duplicate_materials.map dropSnapshot :=
  rebuild_all_idempotent dbWithPv 0 1 (raOk dbWithPv 0) (by decide)

/-- C8 counterexample: the elevation row `id = 10` with list `"[5,7,7]"`
contributes exactly the two edges `(10,5)` and `(10,7)` — a single edge
for material 7, because `_explode_csv` deduplicates within one list value
— refuting "two edges recorded for material 7's duplicate occurrence
within that single list value". -/
theorem elevation_row_edges_counterexample :
    extractEdges [rowC8] 5000 =
      [{ entity_id := 10, material_id := 5, modified := some 20230101 },
       { entity_id := 10, material_id := 7, modified := some 20230101 }]
    ∧ ((extractEdges [rowC8] 5000).filter (fun ed => ed.material_id == 7)).length = 1
    ∧ ¬ ((extractEdges [rowC8] 5000).filter (fun ed => ed.material_id == 7)).length = 2 := by
  decide

/-- C8 amended: a source row contributes exactly one edge per element of
its exploded, first-occurrence-deduplicated list — for `(10, "[5,7,7]")`
the edges `(10,5)` and `(10,7)`, one edge for material 7. -/
theorem elevation_row_edges_amended (r : ListRow) (step : Int) (hst : 1 ≤ step)
    (hl : hasListVal r = true) :
    extractEdges [r] step =
      (_explode_csv r.existing_material_ids).map
        (fun mid => { entity_id := r.id, material_id := mid, modified := r.modified }) := by
  have hmm : minMaxId (([r].filter hasListVal).map ListRow.id) = some (r.id, r.id) := by
    simp [List.filter, hl, minMaxId]
  have hone : (r.id + 1 - r.id).toNat = 1 := by omega
  have hmin : min (r.id + step - 1) r.id = r.id := by omega
  have hloop : _loop_ranges r.id r.id step = [(r.id, r.id)] := by
    unfold _loop_ranges
    rw [hone]
    simp [loopRangesGo, hmin]
  have hchunk : chunkRows [r] r.id r.id = [r] := by
    simp [chunkRows, List.filter, hl]
  rw [extractEdges, hmm]
  simp only [hloop, List.flatMap_cons, List.flatMap_nil, List.append_nil, hchunk, rowEdges]

/-- Witness for C8's amended theorem at the concrete scenario row. -/
theorem elevation_row_edges_amended_witness :
    extractEdges [rowC8] 5000 =
      (_explode_csv rowC8.existing_material_ids).map
        (fun mid => { entity_id := rowC8.id, material_id := mid,
                      modified := rowC8.modified }) :=
  elevation_row_edges_amended rowC8 5000 (by decide) (by decide)

/-- C9 counterexample: during one `rebuild_all` the existence of
`project_views.existing_material_ids` is probed three times (lines 440,
153, 278), not exactly once. -/
theorem pv_probe_counterexample :
    rebuild_all_probes.count pvColProbe = 3
    ∧ ¬ rebuild_all_probes.count pvColProbe = 1 := by
  decide

/-- C9 amended: one full rebuild probes the optional project-view column
three times — once in `rebuild_all` itself and once more in each of
`refresh_extracted_tables` and `rebuild_usage_summary`; nothing caches the
result across stages (the schema is simply unchanged mid-rebuild, so every
probe returns the same answer). -/
theorem pv_probe_amended :
    rebuild_all_probes
      = [pvColProbe] ++ refresh_extracted_probes ++ rebuild_usage_summary_probes
    ∧ rebuild_all_probes.count pvColProbe = 3
    ∧ refresh_extracted_probes.count pvColProbe = 1
    ∧ rebuild_usage_summary_probes.count pvColProbe = 1 := by
  decide

/-- C10: `get_material_usage_stats` with an empty id list behaves exactly
like the no-filter call and returns one entry per summary row (every
material), not an empty result. -/
theorem empty_ids_returns_all (db : DB) :
    get_material_usage_stats db (some []) = get_material_usage_stats db none
    ∧ (get_material_usage_stats db (some [])).map Prod.fst
        = db.van_material_usage_summary.map SummaryRow.material_id := by
  refine ⟨rfl, ?_⟩
  simp [get_material_usage_stats, pyTruthyIds, List.map_map]

end MatAgg
